import Mathlib

/-!
Shallow embedding of the portfolio client script (src/script.js and the
earlier revision src/unnamed/part_000) and proofs about its behavior:
the two carousel controllers, the clipboard helper with its fallback,
the toast notifier, the debounce wrapper, the swipe gesture handler and
the scroll-animation triggers.

Machine conventions: JS numbers that hold slide indices and pixel
coordinates are integers here (`Int`); the JS `%` operator truncates
toward zero, which is `Int.tmod`.
-/

namespace Portfolio

/-! ## Carousel state (script.js, classes ProjectCarousel and AboutCarousel) -/

/-- State of the dot/arrow slide carousel (script.js lines 138-219):
the current slide index and the total slide count. -/
structure ProjectCarousel where
  currentSlide : Int
  totalSlides : Nat
  deriving Repr, DecidableEq

/-- script.js lines 176-210, `showSlide(index)`: an index below 0 is sent to
`totalSlides - 1`, an index at or above `totalSlides` is sent to 0, and the
bounded index becomes the current slide.  (The DOM class/opacity updates act
only on presentation and carry no further state.) -/
def ProjectCarousel.showSlide (c : ProjectCarousel) (index : Int) : ProjectCarousel :=
  let i : Int :=
    if index < 0 then (c.totalSlides : Int) - 1
    else if index ≥ (c.totalSlides : Int) then 0
    else index
  { c with currentSlide := i }

/-- script.js lines 212-214: `showNextSlide` is `showSlide(currentSlide + 1)`. -/
def ProjectCarousel.showNextSlide (c : ProjectCarousel) : ProjectCarousel :=
  c.showSlide (c.currentSlide + 1)

/-- script.js lines 216-218: `showPrevSlide` is `showSlide(currentSlide - 1)`. -/
def ProjectCarousel.showPrevSlide (c : ProjectCarousel) : ProjectCarousel :=
  c.showSlide (c.currentSlide - 1)

/-- State of the centered-card carousel (script.js lines 225-328). -/
structure AboutCarousel where
  currentAboutIndex : Int
  totalAboutCards : Nat
  deriving Repr, DecidableEq

/-- script.js lines 226-235, the constructor: `currentAboutIndex` starts at
the literal 1 ("Start with middle card"), whatever the card count is. -/
def AboutCarousel.make (totalAboutCards : Nat) : AboutCarousel :=
  { currentAboutIndex := 1, totalAboutCards := totalAboutCards }

/-- script.js lines 286-289: `currentAboutIndex = (currentAboutIndex + 1) %
totalAboutCards` with the JS truncating `%`. -/
def AboutCarousel.showNextCard (c : AboutCarousel) : AboutCarousel :=
  { c with currentAboutIndex :=
      Int.tmod (c.currentAboutIndex + 1) (c.totalAboutCards : Int) }

/-- script.js lines 291-294: `currentAboutIndex = (currentAboutIndex - 1 +
totalAboutCards) % totalAboutCards` with the JS truncating `%`. -/
def AboutCarousel.showPrevCard (c : AboutCarousel) : AboutCarousel :=
  { c with currentAboutIndex :=
      Int.tmod (c.currentAboutIndex - 1 + (c.totalAboutCards : Int)) (c.totalAboutCards : Int) }

/-- script.js lines 262-269, the active-class pass of `updateCarousel`: card
`i` carries the `active` class after the update exactly when `i ===
currentAboutIndex`.  The list entry at position `i` says whether card `i` is
marked active. -/
def AboutCarousel.activeFlags (c : AboutCarousel) : List Bool :=
  (List.range c.totalAboutCards).map (fun i => decide ((i : Int) = c.currentAboutIndex))

/-! ## Initialization wiring (script.js, the two `init` methods) -/

/-- The DOM elements the ProjectCarousel constructor queries
(script.js lines 139-148). -/
structure ProjectCarouselDom where
  navDots : List Int
  projectSlides : Nat
  prevArrow : Bool
  nextArrow : Bool
  deriving Repr, DecidableEq

/-- The event handlers `ProjectCarousel.init` can register. -/
inductive ProjectBinding
  | dotClick (slide : Int)
  | prevArrowClick
  | nextArrowClick
  | keydown
  deriving Repr, DecidableEq

/-- script.js lines 150-174, `init`: with zero slides it returns before any
wiring; otherwise it registers one click handler per navigation dot, a
click handler for each arrow that exists, and a document keydown handler.
The function is total: no input makes it fail. -/
def ProjectCarousel.init (dom : ProjectCarouselDom) : List ProjectBinding :=
  if dom.projectSlides = 0 then []
  else
    dom.navDots.map ProjectBinding.dotClick
    ++ (if dom.prevArrow then [ProjectBinding.prevArrowClick] else [])
    ++ (if dom.nextArrow then [ProjectBinding.nextArrowClick] else [])
    ++ [ProjectBinding.keydown]

/-- The DOM elements the AboutCarousel constructor queries
(script.js lines 226-235). -/
structure AboutCarouselDom where
  aboutCards : Nat
  aboutTrack : Bool
  aboutPrevBtn : Bool
  aboutNextBtn : Bool
  deriving Repr, DecidableEq

/-- The handlers and timers `AboutCarousel.init` can register. -/
inductive AboutBinding
  | updateTimer
  | nextBtnClick
  | prevBtnClick
  | resize
  | touchStartBind
  | touchMoveBind
  | touchEndBind
  deriving Repr, DecidableEq

/-- script.js lines 237-260 with 296-327, `init`: with zero cards it returns
before any wiring; otherwise it schedules the initial updateCarousel timer,
registers a click handler per present arrow button, a debounced resize
handler, and — when the track element exists — the three touch handlers of
`initTouchSupport`.  The function is total: no input makes it fail. -/
def AboutCarousel.init (dom : AboutCarouselDom) : List AboutBinding :=
  if dom.aboutCards = 0 then []
  else
    [AboutBinding.updateTimer]
    ++ (if dom.aboutNextBtn then [AboutBinding.nextBtnClick] else [])
    ++ (if dom.aboutPrevBtn then [AboutBinding.prevBtnClick] else [])
    ++ [AboutBinding.resize]
    ++ (if dom.aboutTrack then
          [AboutBinding.touchStartBind, AboutBinding.touchMoveBind, AboutBinding.touchEndBind]
        else [])

/-! ## Clipboard helper (script.js lines 45-67, part_000 lines 43-64) -/

/-- Outcome of the `document.execCommand('copy')` call in the fallback
branch: the command can return true, return false, or throw. -/
inductive ExecCopyOutcome
  | retTrue
  | retFalse
  | threw
  deriving Repr, DecidableEq

/-- `document.execCommand` reports whether the copy succeeded through its
boolean return value. -/
def ExecCopyOutcome.succeeded : ExecCopyOutcome → Bool
  | retTrue => true
  | _ => false

/-- The document body as far as `copyToClipboard` touches it: the values of
the temporary textareas currently attached to it, plus counts of the
appendChild and removeChild calls made on it. -/
structure DocBody where
  textAreas : List String
  appendCount : Nat
  removeCount : Nat
  deriving Repr, DecidableEq

/-- script.js lines 45-67, `copyToClipboard(text)`.  `primaryOk` says
whether `navigator.clipboard.writeText` resolves; `exec` is the behavior of
`document.execCommand('copy')`.  On the primary path the function returns
true at once.  On the fallback path a textarea holding `text` is appended
to the body and selected; then `execCommand` runs inside try/catch: if it
returns (its return value is never inspected by the code) the element is
removed and the function returns true, and if it throws the catch branch
removes the element and returns false. -/
def copyToClipboard (text : String) (primaryOk : Bool) (exec : ExecCopyOutcome)
    (doc : DocBody) : Bool × DocBody :=
  if primaryOk then
    (true, doc)
  else
    let doc1 : DocBody :=
      { textAreas := doc.textAreas ++ [text],
        appendCount := doc.appendCount + 1,
        removeCount := doc.removeCount }
    match exec with
    | ExecCopyOutcome.threw =>
        (false, { doc1 with textAreas := doc1.textAreas.dropLast,
                            removeCount := doc1.removeCount + 1 })
    | _ =>
        (true, { doc1 with textAreas := doc1.textAreas.dropLast,
                           removeCount := doc1.removeCount + 1 })

/-! ## Toast notifier (script.js lines 72-82) -/

/-- The toast element: its text, whether it carries the `show` class, and
the absolute fire times of the hide callbacks scheduled by setTimeout that
have not fired yet. -/
structure ToastState where
  text : String
  shown : Bool
  pending : List Nat
  deriving Repr, DecidableEq

/-- All hide callbacks due by `now` fire: each removes the `show` class
(idempotent) and leaves the pending queue; callbacks scheduled for later
stay. -/
def fireHides (now : Nat) (s : ToastState) : ToastState :=
  if s.pending.any (fun ft => decide (ft ≤ now)) then
    { s with shown := false, pending := s.pending.filter (fun ft => decide (now < ft)) }
  else s

/-- script.js lines 72-82, `showToast(message, duration)` called at absolute
time `now`: it sets the toast text, adds the `show` class, and schedules a
hide callback for `now + duration`.  The hide callbacks scheduled by
earlier calls are NOT cancelled — the function contains no clearTimeout. -/
def showToast (now : Nat) (message : String) (duration : Nat) (s : ToastState) : ToastState :=
  { text := message, shown := true, pending := s.pending ++ [now + duration] }

/-- The empty toast before any call. -/
def toastInit : ToastState := { text := "", shown := false, pending := [] }

/-- Run a time-ordered list of showToast calls (time, message, duration):
before each call, the hide callbacks already due have fired. -/
def runToastCalls : ToastState → List (Nat × String × Nat) → ToastState
  | s, [] => s
  | s, (t, m, d) :: rest => runToastCalls (showToast t m d (fireHides t s)) rest

/-- Whether the toast carries the `show` class at time `t`: the calls at
times ≤ t have run and the hide callbacks due by `t` have fired. -/
def toastShownAt (calls : List (Nat × String × Nat)) (t : Nat) : Bool :=
  (fireHides t (runToastCalls toastInit (calls.filter (fun c => decide (c.1 ≤ t))))).shown

/-! ## Touch swipe (script.js lines 296-327, `initTouchSupport`) -/

/-- The gesture-local state of `initTouchSupport`. -/
structure TouchState where
  startX : Int
  currentX : Int
  isDragging : Bool
  deriving Repr, DecidableEq

/-- The carousel transition a touchend can trigger. -/
inductive SwipeEffect
  | next
  | prev
  deriving Repr, DecidableEq

/-- script.js lines 303-306, the touchstart handler: records the baseline
x coordinate and raises the dragging flag. -/
def touchStart (x : Int) (s : TouchState) : TouchState :=
  { s with startX := x, isDragging := true }

/-- script.js lines 308-311, the touchmove handler: while dragging, tracks
the current x coordinate. -/
def touchMove (x : Int) (s : TouchState) : TouchState :=
  if s.isDragging then { s with currentX := x } else s

/-- script.js lines 313-326, the touchend handler: when dragging, compares
`startX - currentX` against the 50 px threshold and triggers `next` on a
positive overshoot, `prev` on a negative one; then clears the flag. -/
def touchEnd (s : TouchState) : Option SwipeEffect × TouchState :=
  if s.isDragging then
    let diff := s.startX - s.currentX
    let eff : Option SwipeEffect :=
      if 50 < |diff| then
        (if 0 < diff then some SwipeEffect.next else some SwipeEffect.prev)
      else none
    (eff, { s with isDragging := false })
  else (none, s)

/-- A completed touch gesture from any prior state: touchstart at `x0`,
a touchmove to `x1`, then touchend; the value is the transition the
gesture triggers, if any. -/
def swipeGesture (x0 x1 : Int) (s : TouchState) : Option SwipeEffect :=
  (touchEnd (touchMove x1 (touchStart x0 s))).1

/-! ## Debounce wrapper (script.js lines 4-14) -/

/-- The closure state of one debounce wrapper: the pending scheduled
invocation (absolute fire time with the captured arguments) and the
invocations of the wrapped function executed so far, in order. -/
structure DebounceState (α : Type) where
  pending : Option (Nat × α)
  executed : List α

/-- The scheduled `later` callback, due by `now`, fires: it clears the
already-spent timeout and calls `func` with the captured arguments. -/
def debounceFire {α : Type} (now : Nat) (s : DebounceState α) : DebounceState α :=
  match s.pending with
  | some (ft, a) =>
      if ft ≤ now then { pending := none, executed := s.executed ++ [a] } else s
  | none => s

/-- One call of the debounced wrapper at time `now` with arguments `a`
(script.js lines 6-13): a timer due by now has already fired; then
clearTimeout cancels the pending timer and setTimeout schedules `later`
for `now + wait` with the fresh arguments. -/
def debounceCall {α : Type} (wait now : Nat) (a : α) (s : DebounceState α) : DebounceState α :=
  let s1 := debounceFire now s
  { s1 with pending := some (now + wait, a) }

/-- Run a time-ordered list of calls (time, arguments) through the
wrapper. -/
def debounceRun {α : Type} (wait : Nat) : DebounceState α → List (Nat × α) → DebounceState α
  | s, [] => s
  | s, (t, a) :: rest => debounceRun wait (debounceCall wait t a s) rest

/-- Every invocation the wrapped function ever receives for this burst of
calls, once enough time passes after the last call: the executed list plus
the still-pending invocation, which then fires unopposed. -/
def debounceTotal {α : Type} (wait : Nat) (calls : List (Nat × α)) : List α :=
  let s := debounceRun wait { pending := none, executed := [] } calls
  match s.pending with
  | some (_, a) => s.executed ++ [a]
  | none => s.executed

/-! ## Scroll animations (script.js lines 465-473, part_000 lines 264-296) -/

/-- One registered animated element under the polling strategy of
script.js `ScrollAnimations`: whether it carries the `visible` class and
how many `classList.add('visible')` callbacks are scheduled but not yet
fired. -/
structure AnimElem where
  visible : Bool
  pendingAdds : Nat
  deriving Repr, DecidableEq

/-- script.js lines 465-473, one firing of `checkAnimations` for this
element: when the element passes the isInViewport test and does not yet
carry the class, an add is scheduled after the stagger delay. -/
def checkAnimations (inView : Bool) (e : AnimElem) : AnimElem :=
  if inView ∧ ¬ e.visible then { e with pendingAdds := e.pendingAdds + 1 } else e

/-- One scheduled add callback fires: `classList.add('visible')` makes the
class present (a no-op when it already is). -/
def fireAdd (e : AnimElem) : AnimElem :=
  if 0 < e.pendingAdds then { visible := true, pendingAdds := e.pendingAdds - 1 } else e

/-- The events an animated element sees over its lifetime: checkAnimations
firings (with the current viewport verdict) and scheduled add callbacks. -/
inductive AnimEvent
  | check (inView : Bool)
  | timer
  deriving Repr, DecidableEq

/-- One event acting on the element. -/
def animStep (e : AnimElem) : AnimEvent → AnimElem
  | AnimEvent.check b => checkAnimations b e
  | AnimEvent.timer => fireAdd e

/-- A whole event history acting on the element. -/
def animRun (e : AnimElem) : List AnimEvent → AnimElem
  | [] => e
  | ev :: rest => animRun (animStep e ev) rest

/-- How many times the history makes the class appear (a transition from
absent to present). -/
def animGains (e : AnimElem) : List AnimEvent → Nat
  | [] => 0
  | ev :: rest =>
      (if e.visible = false ∧ (animStep e ev).visible = true then 1 else 0)
      + animGains (animStep e ev) rest

/-- One grid item under the observer strategy of part_000
`initScrollAnimations` (lines 279-296): whether the observer still watches
it, whether it carries the `visible` class, and the adds scheduled by the
stagger setTimeout but not yet fired. -/
structure ObservedElem where
  observed : Bool
  visible : Bool
  pendingAdds : Nat
  deriving Repr, DecidableEq

/-- part_000 lines 279-292, one observer callback firing for this element
with intersection verdict `inter`: while observed and intersecting, an add
is scheduled after the stagger delay and the element is unobserved. -/
def observerFire (inter : Bool) (e : ObservedElem) : ObservedElem :=
  if e.observed ∧ inter then
    { e with pendingAdds := e.pendingAdds + 1, observed := false }
  else e

/-- One scheduled add callback fires on an observed-strategy element. -/
def obsFireAdd (e : ObservedElem) : ObservedElem :=
  if 0 < e.pendingAdds then { e with visible := true, pendingAdds := e.pendingAdds - 1 } else e

/-- The events an observer-strategy element sees. -/
inductive ObsEvent
  | intersect (inter : Bool)
  | timer
  deriving Repr, DecidableEq

/-- One event acting on the observer-strategy element. -/
def obsStep (e : ObservedElem) : ObsEvent → ObservedElem
  | ObsEvent.intersect b => observerFire b e
  | ObsEvent.timer => obsFireAdd e

/-- A whole event history acting on the observer-strategy element. -/
def obsRun (e : ObservedElem) : List ObsEvent → ObservedElem
  | [] => e
  | ev :: rest => obsRun (obsStep e ev) rest

/-- How many times the history makes the class appear. -/
def obsGains (e : ObservedElem) : List ObsEvent → Nat
  | [] => 0
  | ev :: rest =>
      (if e.visible = false ∧ (obsStep e ev).visible = true then 1 else 0)
      + obsGains (obsStep e ev) rest

/-! ### Arithmetic lemmas about the carousel transitions -/

/-- On an in-range index, `showNextSlide` is exactly `+1` modulo `N`. -/
lemma ProjectCarousel.showNextSlide_eq_emod (c : ProjectCarousel)
    (h0 : 0 ≤ c.currentSlide) (h1 : c.currentSlide < (c.totalSlides : Int)) :
    c.showNextSlide = ⟨(c.currentSlide + 1) % (c.totalSlides : Int), c.totalSlides⟩ := by
  unfold ProjectCarousel.showNextSlide ProjectCarousel.showSlide
  rcases eq_or_lt_of_le (Int.add_one_le_iff.mpr h1) with he | hlt
  · simp only [he]
    rw [if_neg (by omega), if_pos (by omega)]
    simp [Int.emod_self]
  · rw [if_neg (by omega), if_neg (by omega), Int.emod_eq_of_lt (by omega) hlt]

/-- On an in-range index, `showPrevSlide` is exactly `-1` modulo `N`
(expressed as `+ (N - 1)` to stay nonnegative). -/
lemma ProjectCarousel.showPrevSlide_eq_emod (c : ProjectCarousel)
    (h0 : 0 ≤ c.currentSlide) (h1 : c.currentSlide < (c.totalSlides : Int)) :
    c.showPrevSlide = ⟨(c.currentSlide + ((c.totalSlides : Int) - 1)) % (c.totalSlides : Int),
      c.totalSlides⟩ := by
  unfold ProjectCarousel.showPrevSlide ProjectCarousel.showSlide
  rcases eq_or_lt_of_le h0 with he | hpos
  · rw [if_pos (by omega)]
    have : c.currentSlide + ((c.totalSlides : Int) - 1) = 0 + ((c.totalSlides : Int) - 1) := by
      omega
    rw [this, zero_add, Int.emod_eq_of_lt (by omega) (by omega)]
  · rw [if_neg (by omega), if_neg (by omega)]
    have h2 : c.currentSlide + ((c.totalSlides : Int) - 1)
        = (c.currentSlide - 1) + (c.totalSlides : Int) := by ring
    have h3 : (c.currentSlide - 1 + (c.totalSlides : Int)) % (c.totalSlides : Int)
        = c.currentSlide - 1 := by
      have h4 : c.currentSlide - 1 + (c.totalSlides : Int)
          = c.currentSlide - 1 + (c.totalSlides : Int) * 1 := by ring
      rw [h4, Int.add_mul_emod_self_left, Int.emod_eq_of_lt (by omega) (by omega)]
    rw [h2, h3]

/-- Iterating `showNextSlide` `k` times from an in-range index lands on
`(start + k) % N`. -/
lemma ProjectCarousel.iterate_showNextSlide (k : Nat) (n : Nat) (i : Int)
    (h0 : 0 ≤ i) (h1 : i < (n : Int)) :
    (ProjectCarousel.showNextSlide)^[k] ⟨i, n⟩ = ⟨(i + k) % (n : Int), n⟩ := by
  induction k with
  | zero => simp [Int.emod_eq_of_lt h0 h1]
  | succ m ih =>
    rw [Function.iterate_succ_apply', ih]
    have hn : (0 : Int) < n := by omega
    have hm0 : 0 ≤ (i + m) % (n : Int) := Int.emod_nonneg _ (by omega)
    have hm1 : (i + m) % (n : Int) < (n : Int) := Int.emod_lt_of_pos _ hn
    rw [ProjectCarousel.showNextSlide_eq_emod ⟨(i + m) % (n : Int), n⟩ hm0 hm1]
    simp only [ProjectCarousel.mk.injEq, and_true]
    rw [Int.emod_add_emod]
    congr 1
    push_cast
    ring

/-- On an in-range index, `showNextCard` is `+1` modulo `N` in the
mathematical (euclidean) sense. -/
lemma AboutCarousel.showNextCard_eq_emod (c : AboutCarousel)
    (h0 : 0 ≤ c.currentAboutIndex) (_h1 : c.currentAboutIndex < (c.totalAboutCards : Int)) :
    c.showNextCard = ⟨(c.currentAboutIndex + 1) % (c.totalAboutCards : Int),
      c.totalAboutCards⟩ := by
  unfold AboutCarousel.showNextCard
  rw [Int.tmod_eq_emod (by omega) (by omega)]

/-- On an in-range index, `showPrevCard` is `-1` modulo `N` (expressed as
`+ (N - 1)` to stay nonnegative). -/
lemma AboutCarousel.showPrevCard_eq_emod (c : AboutCarousel)
    (h0 : 0 ≤ c.currentAboutIndex) (h1 : c.currentAboutIndex < (c.totalAboutCards : Int)) :
    c.showPrevCard = ⟨(c.currentAboutIndex + ((c.totalAboutCards : Int) - 1)) %
      (c.totalAboutCards : Int), c.totalAboutCards⟩ := by
  unfold AboutCarousel.showPrevCard
  rw [Int.tmod_eq_emod (by omega) (by omega)]
  congr 2
  omega

/-- Iterating `showNextCard` `k` times from an in-range index lands on
`(start + k) % N`. -/
lemma AboutCarousel.iterate_showNextCard (k : Nat) (n : Nat) (i : Int)
    (h0 : 0 ≤ i) (h1 : i < (n : Int)) :
    (AboutCarousel.showNextCard)^[k] ⟨i, n⟩ = ⟨(i + k) % (n : Int), n⟩ := by
  induction k with
  | zero => simp [Int.emod_eq_of_lt h0 h1]
  | succ m ih =>
    rw [Function.iterate_succ_apply', ih]
    have hn : (0 : Int) < n := by omega
    have hm0 : 0 ≤ (i + m) % (n : Int) := Int.emod_nonneg _ (by omega)
    have hm1 : (i + m) % (n : Int) < (n : Int) := Int.emod_lt_of_pos _ hn
    rw [AboutCarousel.showNextCard_eq_emod ⟨(i + m) % (n : Int), n⟩ hm0 hm1]
    simp only [AboutCarousel.mk.injEq, and_true]
    rw [Int.emod_add_emod]
    congr 1
    push_cast
    ring

/-! ### Lemmas about the debounce wrapper -/

/-- A debounced call made while the pending timer is not yet due cancels
that timer and schedules its own. -/
lemma debounceCall_not_due {α : Type} (wait now ft : Nat) (a a0 : α) (es : List α)
    (h : ¬ ft ≤ now) :
    debounceCall wait now a { pending := some (ft, a0), executed := es }
      = { pending := some (now + wait, a), executed := es } := by
  unfold debounceCall debounceFire
  simp [h]

/-- A debounced call with no pending timer just schedules its own. -/
lemma debounceCall_none {α : Type} (wait now : Nat) (a : α) (es : List α) :
    debounceCall wait now a { pending := none, executed := es }
      = { pending := some (now + wait, a), executed := es } := by
  unfold debounceCall debounceFire
  simp

/-- Inside a burst where every call lands strictly before its predecessor's
timer is due, each call only replaces the pending invocation: nothing
executes during the burst and the pending invocation ends as the last
call's. -/
lemma debounceRun_burst {α : Type} (wait : Nat) :
    ∀ (calls : List (Nat × α)) (t0 : Nat) (a0 : α) (es : List α),
      List.Chain' (fun c1 c2 => c2.1 < c1.1 + wait) ((t0, a0) :: calls) →
      debounceRun wait { pending := some (t0 + wait, a0), executed := es } calls
        = { pending := some ((((t0, a0) :: calls).getLast (List.cons_ne_nil _ _)).1 + wait,
              (((t0, a0) :: calls).getLast (List.cons_ne_nil _ _)).2),
            executed := es } := by
  intro calls
  induction calls with
  | nil =>
    intro t0 a0 es _
    simp [debounceRun, List.getLast]
  | cons c rest ih =>
    intro t0 a0 es hchain
    obtain ⟨t1, a1⟩ := c
    have h1 : t1 < t0 + wait := (List.chain'_cons.mp hchain).1
    have h2 : List.Chain' (fun c1 c2 => c2.1 < c1.1 + wait) ((t1, a1) :: rest) :=
      (List.chain'_cons.mp hchain).2
    simp only [debounceRun]
    rw [debounceCall_not_due wait t1 (t0 + wait) a1 a0 es (by omega)]
    rw [ih t1 a1 es h2]
    rw [List.getLast_cons_cons]

/-! ### Lemmas about the scroll-animation triggers -/

/-- Neither a check firing nor an add callback ever removes the `visible`
class. -/
lemma animStep_preserves_visible (e : AnimElem) (ev : AnimEvent)
    (h : e.visible = true) : (animStep e ev).visible = true := by
  cases ev with
  | check b =>
    simp only [animStep, checkAnimations]
    split <;> simp [h]
  | timer =>
    simp only [animStep, fireAdd]
    split <;> simp [h]

/-- Over any event history, the `visible` class, once present, stays. -/
lemma animRun_preserves_visible (evts : List AnimEvent) :
    ∀ e : AnimElem, e.visible = true → (animRun e evts).visible = true := by
  induction evts with
  | nil => intro e h; exact h
  | cons ev rest ih =>
    intro e h
    exact ih (animStep e ev) (animStep_preserves_visible e ev h)

/-- An element already carrying the class gains it zero further times. -/
lemma animGains_eq_zero (evts : List AnimEvent) :
    ∀ e : AnimElem, e.visible = true → animGains e evts = 0 := by
  induction evts with
  | nil => intro e _; rfl
  | cons ev rest ih =>
    intro e h
    unfold animGains
    rw [if_neg (by simp [h]), ih (animStep e ev) (animStep_preserves_visible e ev h)]

/-- Over any event history, the class appears at most once. -/
lemma animGains_le_one (evts : List AnimEvent) :
    ∀ e : AnimElem, animGains e evts ≤ 1 := by
  induction evts with
  | nil => intro e; simp [animGains]
  | cons ev rest ih =>
    intro e
    unfold animGains
    by_cases h : e.visible = false ∧ (animStep e ev).visible = true
    · rw [if_pos h, animGains_eq_zero rest (animStep e ev) h.2]
    · rw [if_neg h]
      simpa using ih (animStep e ev)

/-- Neither an observer callback nor an add callback ever removes the
`visible` class. -/
lemma obsStep_preserves_visible (e : ObservedElem) (ev : ObsEvent)
    (h : e.visible = true) : (obsStep e ev).visible = true := by
  cases ev with
  | intersect b =>
    simp only [obsStep, observerFire]
    split <;> simp [h]
  | timer =>
    simp only [obsStep, obsFireAdd]
    split <;> simp [h]

/-- Over any event history, the `visible` class, once present, stays. -/
lemma obsRun_preserves_visible (evts : List ObsEvent) :
    ∀ e : ObservedElem, e.visible = true → (obsRun e evts).visible = true := by
  induction evts with
  | nil => intro e h; exact h
  | cons ev rest ih =>
    intro e h
    exact ih (obsStep e ev) (obsStep_preserves_visible e ev h)

/-- An element already carrying the class gains it zero further times. -/
lemma obsGains_eq_zero (evts : List ObsEvent) :
    ∀ e : ObservedElem, e.visible = true → obsGains e evts = 0 := by
  induction evts with
  | nil => intro e _; rfl
  | cons ev rest ih =>
    intro e h
    unfold obsGains
    rw [if_neg (by simp [h]), ih (obsStep e ev) (obsStep_preserves_visible e ev h)]

/-- Over any event history, the class appears at most once. -/
lemma obsGains_le_one (evts : List ObsEvent) :
    ∀ e : ObservedElem, obsGains e evts ≤ 1 := by
  induction evts with
  | nil => intro e; simp [obsGains]
  | cons ev rest ih =>
    intro e
    unfold obsGains
    by_cases h : e.visible = false ∧ (obsStep e ev).visible = true
    · rw [if_pos h, obsGains_eq_zero rest (obsStep e ev) h.2]
    · rw [if_neg h]
      simpa using ih (obsStep e ev)

/-- Adding the modulus to an in-range value is the identity modulo `n`. -/
lemma emod_add_self_of_range (n i : Int) (h0 : 0 ≤ i) (h1 : i < n) : (i + n) % n = i := by
  have h4 : i + n = i + n * 1 := by ring
  rw [h4, Int.add_mul_emod_self_left, Int.emod_eq_of_lt h0 h1]

end Portfolio

open Portfolio

/-- C1: for every carousel with N ≥ 1 slides and every starting index in
[0, N), applying `next` N times returns the carousel to its starting index,
and `prev` applied after `next` (resp. `next` after `prev`) returns to the
starting index, for both the slide variant (`ProjectCarousel`) and the
centered-card variant (`AboutCarousel`). -/
theorem C1_next_cycle_prev_inverse (n : Nat) (i : Int)
    (hn : 1 ≤ n) (h0 : 0 ≤ i) (h1 : i < (n : Int)) :
    (ProjectCarousel.showNextSlide)^[n] ⟨i, n⟩ = ⟨i, n⟩
    ∧ (ProjectCarousel.mk i n).showNextSlide.showPrevSlide = ⟨i, n⟩
    ∧ (ProjectCarousel.mk i n).showPrevSlide.showNextSlide = ⟨i, n⟩
    ∧ (AboutCarousel.showNextCard)^[n] ⟨i, n⟩ = ⟨i, n⟩
    ∧ (AboutCarousel.mk i n).showNextCard.showPrevCard = ⟨i, n⟩
    ∧ (AboutCarousel.mk i n).showPrevCard.showNextCard = ⟨i, n⟩ := by
  have hn0 : (0 : Int) < (n : Int) := by omega
  have hmod0 : ∀ j : Int, 0 ≤ j % (n : Int) := fun j => Int.emod_nonneg _ (by omega)
  have hmod1 : ∀ j : Int, j % (n : Int) < (n : Int) := fun j => Int.emod_lt_of_pos _ hn0
  refine ⟨?_, ?_, ?_, ?_, ?_, ?_⟩
  · rw [ProjectCarousel.iterate_showNextSlide n n i h0 h1]
    simp only [ProjectCarousel.mk.injEq, and_true]
    exact emod_add_self_of_range _ _ h0 h1
  · rw [ProjectCarousel.showNextSlide_eq_emod ⟨i, n⟩ h0 h1]
    rw [ProjectCarousel.showPrevSlide_eq_emod _ (hmod0 _) (hmod1 _)]
    simp only [ProjectCarousel.mk.injEq, and_true]
    rw [Int.emod_add_emod]
    have he : i + 1 + ((n : Int) - 1) = i + (n : Int) := by ring
    rw [he]
    exact emod_add_self_of_range _ _ h0 h1
  · rw [ProjectCarousel.showPrevSlide_eq_emod ⟨i, n⟩ h0 h1]
    rw [ProjectCarousel.showNextSlide_eq_emod _ (hmod0 _) (hmod1 _)]
    simp only [ProjectCarousel.mk.injEq, and_true]
    rw [Int.emod_add_emod]
    have he : i + ((n : Int) - 1) + 1 = i + (n : Int) := by ring
    rw [he]
    exact emod_add_self_of_range _ _ h0 h1
  · rw [AboutCarousel.iterate_showNextCard n n i h0 h1]
    simp only [AboutCarousel.mk.injEq, and_true]
    exact emod_add_self_of_range _ _ h0 h1
  · rw [AboutCarousel.showNextCard_eq_emod ⟨i, n⟩ h0 h1]
    rw [AboutCarousel.showPrevCard_eq_emod _ (hmod0 _) (hmod1 _)]
    simp only [AboutCarousel.mk.injEq, and_true]
    rw [Int.emod_add_emod]
    have he : i + 1 + ((n : Int) - 1) = i + (n : Int) := by ring
    rw [he]
    exact emod_add_self_of_range _ _ h0 h1
  · rw [AboutCarousel.showPrevCard_eq_emod ⟨i, n⟩ h0 h1]
    rw [AboutCarousel.showNextCard_eq_emod _ (hmod0 _) (hmod1 _)]
    simp only [AboutCarousel.mk.injEq, and_true]
    rw [Int.emod_add_emod]
    have he : i + ((n : Int) - 1) + 1 = i + (n : Int) := by ring
    rw [he]
    exact emod_add_self_of_range _ _ h0 h1

/-- Witness for C1 at N = 3, starting index 2. -/
theorem C1_next_cycle_prev_inverse_witness :
    (1 ≤ 3 ∧ (0 : Int) ≤ 2 ∧ (2 : Int) < (3 : Nat))
    ∧ (ProjectCarousel.showNextSlide)^[3] ⟨2, 3⟩ = ⟨2, 3⟩ :=
  ⟨⟨by decide, by decide, by decide⟩,
    (C1_next_cycle_prev_inverse 3 2 (by decide) (by decide) (by decide)).1⟩

/-- C2: for every carousel with N ≥ 1 slides, every transition preserves the
invariant that the index lies in [0, N): `next` and `prev` wrap modulo N in
both directions for both variants, and `showSlide` (the `goTo` transition)
maps every integer argument, negative or ≥ N included, into [0, N). -/
theorem C2_index_stays_in_range (n : Nat) (i j : Int)
    (hn : 1 ≤ n) (h0 : 0 ≤ i) (h1 : i < (n : Int)) :
    (0 ≤ (ProjectCarousel.showSlide ⟨i, n⟩ j).currentSlide
      ∧ (ProjectCarousel.showSlide ⟨i, n⟩ j).currentSlide < (n : Int))
    ∧ (0 ≤ (ProjectCarousel.mk i n).showNextSlide.currentSlide
      ∧ (ProjectCarousel.mk i n).showNextSlide.currentSlide < (n : Int))
    ∧ (0 ≤ (ProjectCarousel.mk i n).showPrevSlide.currentSlide
      ∧ (ProjectCarousel.mk i n).showPrevSlide.currentSlide < (n : Int))
    ∧ (0 ≤ (AboutCarousel.mk i n).showNextCard.currentAboutIndex
      ∧ (AboutCarousel.mk i n).showNextCard.currentAboutIndex < (n : Int))
    ∧ (0 ≤ (AboutCarousel.mk i n).showPrevCard.currentAboutIndex
      ∧ (AboutCarousel.mk i n).showPrevCard.currentAboutIndex < (n : Int)) := by
  have hn0 : (0 : Int) < (n : Int) := by omega
  have hmod0 : ∀ j : Int, 0 ≤ j % (n : Int) := fun j => Int.emod_nonneg _ (by omega)
  have hmod1 : ∀ j : Int, j % (n : Int) < (n : Int) := fun j => Int.emod_lt_of_pos _ hn0
  refine ⟨?_, ?_, ?_, ?_, ?_⟩
  · unfold ProjectCarousel.showSlide
    dsimp only
    constructor
    · split
      · omega
      · split
        · omega
        · omega
    · split
      · omega
      · split
        · omega
        · omega
  · rw [ProjectCarousel.showNextSlide_eq_emod ⟨i, n⟩ h0 h1]
    exact ⟨hmod0 _, hmod1 _⟩
  · rw [ProjectCarousel.showPrevSlide_eq_emod ⟨i, n⟩ h0 h1]
    exact ⟨hmod0 _, hmod1 _⟩
  · rw [AboutCarousel.showNextCard_eq_emod ⟨i, n⟩ h0 h1]
    exact ⟨hmod0 _, hmod1 _⟩
  · rw [AboutCarousel.showPrevCard_eq_emod ⟨i, n⟩ h0 h1]
    exact ⟨hmod0 _, hmod1 _⟩

/-- Witness for C2 at N = 2, index 1, `goTo` argument -7 (outside [0, N)). -/
theorem C2_index_stays_in_range_witness :
    (1 ≤ 2 ∧ (0 : Int) ≤ 1 ∧ (1 : Int) < (2 : Nat))
    ∧ 0 ≤ (ProjectCarousel.showSlide ⟨1, 2⟩ (-7)).currentSlide
    ∧ (ProjectCarousel.showSlide ⟨1, 2⟩ (-7)).currentSlide < (2 : Nat) :=
  ⟨⟨by decide, by decide, by decide⟩,
    (C2_index_stays_in_range 2 1 (-7) (by decide) (by decide) (by decide)).1⟩

/-- C3: a carousel constructed over zero slides/cards registers no event
handler of any kind — no dot, arrow, keyboard, resize, timer or touch
binding — whatever other elements the page offers; both `init` methods are
total functions, so no error is raised and the controller is inert. -/
theorem C3_zero_slides_no_wiring (pd : ProjectCarouselDom) (ad : AboutCarouselDom)
    (hp : pd.projectSlides = 0) (ha : ad.aboutCards = 0) :
    ProjectCarousel.init pd = [] ∧ AboutCarousel.init ad = [] := by
  constructor
  · unfold ProjectCarousel.init
    rw [if_pos hp]
  · unfold AboutCarousel.init
    rw [if_pos ha]

/-- Witness for C3: a page with dots, both arrows, buttons and a track
present, but zero slides and zero cards. -/
theorem C3_zero_slides_no_wiring_witness :
    ((ProjectCarouselDom.mk [0, 1, 2] 0 true true).projectSlides = 0
      ∧ (AboutCarouselDom.mk 0 true true true).aboutCards = 0)
    ∧ ProjectCarousel.init (ProjectCarouselDom.mk [0, 1, 2] 0 true true) = []
    ∧ AboutCarousel.init (AboutCarouselDom.mk 0 true true true) = [] :=
  ⟨⟨rfl, rfl⟩,
    C3_zero_slides_no_wiring (ProjectCarouselDom.mk [0, 1, 2] 0 true true)
      (AboutCarouselDom.mk 0 true true true) rfl rfl⟩

/-- C4: for every input string, a successful primary clipboard write makes
copyToClipboard report success with the document untouched (no fallback
element is ever created); a failed primary write makes the fallback append
the temporary element exactly once and remove it exactly once — on the
success branch and on the failure branch alike — so the document ends
without the temporary element in every outcome. -/
theorem C4_fallback_element_balanced (text : String) (primaryOk : Bool)
    (exec : ExecCopyOutcome) (doc : DocBody) :
    (primaryOk = true → copyToClipboard text primaryOk exec doc = (true, doc))
    ∧ (primaryOk = false →
        (copyToClipboard text primaryOk exec doc).2.textAreas = doc.textAreas
        ∧ (copyToClipboard text primaryOk exec doc).2.appendCount = doc.appendCount + 1
        ∧ (copyToClipboard text primaryOk exec doc).2.removeCount = doc.removeCount + 1) := by
  constructor
  · intro h
    subst h
    simp [copyToClipboard]
  · intro h
    subst h
    cases exec <;> simp [copyToClipboard]

/-- Witness for C4: primary write fails, fallback command throws. -/
theorem C4_fallback_element_balanced_witness :
    (copyToClipboard "a" false ExecCopyOutcome.threw (DocBody.mk [] 0 0)).2.textAreas = []
    ∧ (copyToClipboard "a" false ExecCopyOutcome.threw (DocBody.mk [] 0 0)).2.appendCount = 0 + 1
    ∧ (copyToClipboard "a" false ExecCopyOutcome.threw (DocBody.mk [] 0 0)).2.removeCount
      = 0 + 1 :=
  (C4_fallback_element_balanced "a" false ExecCopyOutcome.threw (DocBody.mk [] 0 0)).2 rfl

/-- C5 counterexample: with the primary write failing and the fallback copy
command returning false (failure) without throwing, copyToClipboard still
reports success — its boolean result does not match the outcome of the
fallback copy command. -/
theorem C5_result_mismatch_counterexample :
    (copyToClipboard "a" false ExecCopyOutcome.retFalse (DocBody.mk [] 0 0)).1 = true
    ∧ ExecCopyOutcome.retFalse.succeeded = false := by
  constructor
  · rfl
  · rfl

/-- C5 amended: when the primary clipboard write fails, copyToClipboard
reports failure exactly when the fallback copy command throws; the
command's boolean return value is never inspected, so a fallback command
that reports failure by returning false is still reported as success. -/
theorem C5_fallback_result_matches_throw (text : String) (exec : ExecCopyOutcome)
    (doc : DocBody) :
    (copyToClipboard text false exec doc).1 = false ↔ exec = ExecCopyOutcome.threw := by
  cases exec <;> simp [copyToClipboard]

/-- C10: the centered-card carousel's initial index is the constant 1 for
every card count N; among odd card counts the initial index is the middle
card (N-1)/2 exactly when N = 3; for N = 1 the initial index 1 lies outside
[0, 1), the initial updateCarousel pass marks no card active, and the first
`next` (or `prev`) transition brings the index into [0, 1). -/
theorem C10_initial_index_is_one (n : Nat) (hodd : n % 2 = 1) :
    (∀ m : Nat, (AboutCarousel.make m).currentAboutIndex = 1)
    ∧ ((AboutCarousel.make n).currentAboutIndex = (((n - 1) / 2 : Nat) : Int) ↔ n = 3)
    ∧ ¬ ((AboutCarousel.make 1).currentAboutIndex < ((1 : Nat) : Int))
    ∧ (AboutCarousel.make 1).activeFlags = [false]
    ∧ (0 ≤ (AboutCarousel.make 1).showNextCard.currentAboutIndex
        ∧ (AboutCarousel.make 1).showNextCard.currentAboutIndex < ((1 : Nat) : Int))
    ∧ (0 ≤ (AboutCarousel.make 1).showPrevCard.currentAboutIndex
        ∧ (AboutCarousel.make 1).showPrevCard.currentAboutIndex < ((1 : Nat) : Int)) := by
  refine ⟨fun m => rfl, ?_, by decide, by decide, by decide, by decide⟩
  show (1 : Int) = (((n - 1) / 2 : Nat) : Int) ↔ n = 3
  constructor
  · intro h
    have h2 : ((n - 1) / 2 : Nat) = 1 := by exact_mod_cast h.symm
    omega
  · intro h
    subst h
    rfl

/-- Witness for C10 at the odd card count N = 3, where the initial card is
the middle one. -/
theorem C10_initial_index_is_one_witness :
    (3 % 2 = 1)
    ∧ ((AboutCarousel.make 3).currentAboutIndex = (((3 - 1) / 2 : Nat) : Int) ↔ 3 = 3) :=
  ⟨rfl, (C10_initial_index_is_one 3 rfl).2.1⟩

/-- C6 counterexample: first call at time 0 with duration 2000, second call
at time 1000 (before the first hide is due) with duration 2000.  The claim
puts the toast still shown at time 2500 — within the full duration measured
from the second call — but the first call's hide callback, which showToast
never cancels, has already fired at time 2000 and removed the `show`
class. -/
theorem C6_timer_not_reset_counterexample :
    toastShownAt [(0, "a", 2000), (1000, "b", 2000)] 2500 = false
    ∧ 1000 < 0 + 2000
    ∧ 1000 + 2000 > 2500 := by
  refine ⟨?_, by decide, by decide⟩
  rfl

/-- C6 amended: a second showToast call arriving before the first call's
hide is due overwrites the displayed text immediately (last write wins)
and the toast is shown right after it; but the call schedules an
additional hide callback without cancelling the first one, so at every
time from the first call's expiry on — in particular strictly before the
second call's full duration has elapsed — the toast is hidden.  No
messages are queued. -/
theorem C6_second_call_overwrites_but_hides_early
    (t1 d1 t2 d2 t : Nat) (m1 m2 : String)
    (h12 : t1 < t2) (hwin : t2 < t1 + d1) (ht : t1 + d1 ≤ t) :
    (runToastCalls toastInit [(t1, m1, d1), (t2, m2, d2)]).text = m2
    ∧ (runToastCalls toastInit [(t1, m1, d1), (t2, m2, d2)]).shown = true
    ∧ toastShownAt [(t1, m1, d1), (t2, m2, d2)] t = false := by
  have hno : ¬ (t1 + d1 ≤ t2) := by omega
  have hrun : runToastCalls toastInit [(t1, m1, d1), (t2, m2, d2)]
      = { text := m2, shown := true, pending := [t1 + d1, t2 + d2] } := by
    simp [runToastCalls, toastInit, fireHides, showToast, hno]
  refine ⟨by rw [hrun], by rw [hrun], ?_⟩
  have hfilter : (([(t1, m1, d1), (t2, m2, d2)] : List (Nat × String × Nat)).filter
      (fun c => decide (c.1 ≤ t))) = [(t1, m1, d1), (t2, m2, d2)] := by
    have ha : t1 ≤ t := by omega
    have hb : t2 ≤ t := by omega
    simp [List.filter, ha, hb]
  unfold toastShownAt
  rw [hfilter, hrun]
  unfold fireHides
  rw [if_pos]
  · simp [List.any_cons]
    left
    omega

/-- Witness for C6 amended: calls at 0 and 1000, both with duration 2000,
observed at time 2500. -/
theorem C6_second_call_overwrites_but_hides_early_witness :
    (0 < 1000 ∧ 1000 < 0 + 2000 ∧ 0 + 2000 ≤ 2500)
    ∧ (runToastCalls toastInit [(0, "a", 2000), (1000, "b", 2000)]).text = "b"
    ∧ (runToastCalls toastInit [(0, "a", 2000), (1000, "b", 2000)]).shown = true
    ∧ toastShownAt [(0, "a", 2000), (1000, "b", 2000)] 2500 = false :=
  ⟨⟨by decide, by decide, by decide⟩,
    C6_second_call_overwrites_but_hides_early 0 2000 1000 2000 2500 "a" "b"
      (by decide) (by decide) (by decide)⟩

/-- C7: for every completed touch gesture on the centered-card carousel,
an absolute horizontal displacement of at most 50 px triggers no
transition, and a displacement of at least 51 px triggers exactly one:
`next` when start minus end is positive (leftward swipe), `prev` when it is
negative. -/
theorem C7_swipe_threshold (x0 x1 : Int) (s : TouchState) :
    (|x0 - x1| ≤ 50 → swipeGesture x0 x1 s = none)
    ∧ (51 ≤ |x0 - x1| → 0 < x0 - x1 → swipeGesture x0 x1 s = some SwipeEffect.next)
    ∧ (51 ≤ |x0 - x1| → x0 - x1 < 0 → swipeGesture x0 x1 s = some SwipeEffect.prev) := by
  have hg : swipeGesture x0 x1 s
      = (if 50 < |x0 - x1| then
          (if 0 < x0 - x1 then some SwipeEffect.next else some SwipeEffect.prev)
        else none) := by
    unfold swipeGesture touchEnd touchMove touchStart
    simp
  refine ⟨?_, ?_, ?_⟩
  · intro h
    rw [hg, if_neg (by omega)]
  · intro h h2
    rw [hg, if_pos (by omega), if_pos h2]
  · intro h h2
    rw [hg, if_pos (by omega), if_neg (by omega)]

/-- Witness for C7: a 30 px gesture triggers nothing, a 51 px leftward
gesture triggers `next`, a 51 px rightward gesture triggers `prev`. -/
theorem C7_swipe_threshold_witness :
    (|(130 : Int) - 100| ≤ 50 ∧ swipeGesture 130 100 (TouchState.mk 0 0 false) = none)
    ∧ (51 ≤ |(151 : Int) - 100| ∧ (0 : Int) < 151 - 100
        ∧ swipeGesture 151 100 (TouchState.mk 0 0 false) = some SwipeEffect.next)
    ∧ (51 ≤ |(100 : Int) - 151| ∧ (100 : Int) - 151 < 0
        ∧ swipeGesture 100 151 (TouchState.mk 0 0 false) = some SwipeEffect.prev) :=
  ⟨⟨by decide, (C7_swipe_threshold 130 100 (TouchState.mk 0 0 false)).1 (by decide)⟩,
    ⟨by decide, by decide,
      (C7_swipe_threshold 151 100 (TouchState.mk 0 0 false)).2.1 (by decide) (by decide)⟩,
    ⟨by decide, by decide,
      (C7_swipe_threshold 100 151 (TouchState.mk 0 0 false)).2.2 (by decide) (by decide)⟩⟩

/-- C8: for every nonempty burst of calls to a debounced function in which
each call falls strictly within the wait window opened by its predecessor,
the wrapped function executes exactly once, and with the arguments of the
last call of the burst. -/
theorem C8_debounce_executes_once {α : Type} (wait : Nat) (calls : List (Nat × α))
    (hne : calls ≠ [])
    (hchain : List.Chain' (fun c1 c2 => c2.1 < c1.1 + wait) calls) :
    debounceTotal wait calls = [(calls.getLast hne).2] := by
  cases calls with
  | nil => exact absurd rfl hne
  | cons c rest =>
    obtain ⟨t0, a0⟩ := c
    unfold debounceTotal
    simp only [debounceRun]
    rw [debounceCall_none wait t0 a0 []]
    rw [debounceRun_burst wait rest t0 a0 [] hchain]
    rfl

/-- Witness for C8: wait 100 ms, calls at 0, 50 and 120 ms (each within
100 ms of its predecessor), arguments 10, 20, 30: only the invocation with
argument 30 executes. -/
theorem C8_debounce_executes_once_witness :
    (([(0, 10), (50, 20), (120, 30)] : List (Nat × Nat)) ≠ []
      ∧ List.Chain' (fun c1 c2 : Nat × Nat => c2.1 < c1.1 + 100) [(0, 10), (50, 20), (120, 30)])
    ∧ debounceTotal 100 ([(0, 10), (50, 20), (120, 30)] : List (Nat × Nat)) = [30] := by
  have hne : ([(0, 10), (50, 20), (120, 30)] : List (Nat × Nat)) ≠ [] := by decide
  have hchain : List.Chain' (fun c1 c2 : Nat × Nat => c2.1 < c1.1 + 100)
      [(0, 10), (50, 20), (120, 30)] := by
    simp [List.chain'_cons]
  exact ⟨⟨hne, hchain⟩, C8_debounce_executes_once 100 _ hne hchain⟩

/-- C9: for a registered animated element, under the polling strategy and
under the intersection-observer strategy alike, the `visible` marker class
is gained at most once over any event history, and once present it is never
removed, however many times the viewport check or the observer fires. -/
theorem C9_visible_marker_one_way (e : AnimElem) (evts : List AnimEvent)
    (o : ObservedElem) (oevts : List ObsEvent) :
    (e.visible = true → (animRun e evts).visible = true)
    ∧ animGains e evts ≤ 1
    ∧ (o.visible = true → (obsRun o oevts).visible = true)
    ∧ obsGains o oevts ≤ 1 :=
  ⟨animRun_preserves_visible evts e, animGains_le_one evts e,
    obsRun_preserves_visible oevts o, obsGains_le_one oevts o⟩

/-- Witness for C9: an element already visible stays visible through a
history in which the check keeps firing, and the class is gained at most
once through repeated in-viewport checks and timers. -/
theorem C9_visible_marker_one_way_witness :
    (animRun (AnimElem.mk true 0)
        [AnimEvent.check true, AnimEvent.timer, AnimEvent.check true]).visible = true
    ∧ animGains (AnimElem.mk true 0)
        [AnimEvent.check true, AnimEvent.timer, AnimEvent.check true] ≤ 1
    ∧ (obsRun (ObservedElem.mk true true 0)
        [ObsEvent.intersect true, ObsEvent.timer, ObsEvent.intersect true]).visible = true
    ∧ obsGains (ObservedElem.mk true true 0)
        [ObsEvent.intersect true, ObsEvent.timer, ObsEvent.intersect true] ≤ 1 :=
  have h := C9_visible_marker_one_way (AnimElem.mk true 0)
    [AnimEvent.check true, AnimEvent.timer, AnimEvent.check true]
    (ObservedElem.mk true true 0)
    [ObsEvent.intersect true, ObsEvent.timer, ObsEvent.intersect true]
  ⟨h.1 rfl, h.2.1, h.2.2.1 rfl, h.2.2.2⟩
